import Mathlib

/-!
Shallow embedding of `src/app/app.py` (the C-Skin retrieval-augmented chat
assistant) and verification of its specification claims.

Modelling conventions:
* Python strings are Lean `String`s; `str.strip()` is modelled by `pyStrip`,
  which drops exactly the ASCII whitespace characters Python strips.
* Calls into external services (langdetect, the Ollama LLM, the Qdrant
  vector store, the chat framework's message sends) are oracles passed as
  parameters; a call that may raise is an `Except Unit` value, `.error ()`
  standing for a raised exception.
* Qdrant similarity scores are modelled as rationals (`ℚ`); the embedded
  code performs only comparisons on them, which rationals mirror.
* The chainlit session store is modelled with value semantics as an
  `Option (List Turn)`: `cl.user_session.get "history" []` reads the stored
  list (or the default `[]`), `cl.user_session.set` replaces it.
* Framework calls awaited inside a handler may raise; a handler model takes
  a `failAt : Option Nat` parameter naming the (execution-order) index of
  the awaited call that raises, `none` meaning no call raises.
-/

namespace CSkin

/-- The ASCII whitespace characters removed by Python `str.strip()`. -/
def pyIsSpace (c : Char) : Bool :=
  c = ' ' || c = '\t' || c = '\n' || c = '\x0d' || c = '\x0b' || c = '\x0c'

/-- Python `s.strip()`: drop leading and trailing whitespace. -/
def pyStrip (s : String) : String :=
  ⟨((s.data.dropWhile pyIsSpace).reverse.dropWhile pyIsSpace).reverse⟩

/-- Escaping of a single character inside a Python `repr` of a string. -/
def pyReprChar (c : Char) : String :=
  if c = '\\' then "\\\\"
  else if c = '\'' then "\\'"
  else if c = '\n' then "\\n"
  else if c = '\x0d' then "\\r"
  else if c = '\t' then "\\t"
  else String.singleton c

/-- Python `repr` of a string, as produced for elements when a `list` of
strings is interpolated into an f-string. Faithful for strings of printable
characters (Python switches to double quotes only when the string contains a
single quote and no double quote; all inputs used below are quote-free). -/
def pyRepr (s : String) : String :=
  "'" ++ String.join (s.data.map pyReprChar) ++ "'"

/-- Python `str` of a list of strings, as interpolated by an f-string:
`[` + comma-separated `repr`s of the elements + `]`. -/
def pyListStr (xs : List String) : String :=
  "[" ++ String.intercalate ", " (xs.map pyRepr) ++ "]"

/-- `occursIn pat s` decides whether `pat` occurs as a contiguous substring
of `s` (both given as character lists). -/
def occursIn (pat : List Char) : List Char → Bool
  | [] => pat.isEmpty
  | c :: rest => pat.isPrefixOf (c :: rest) || occursIn pat rest

/-! ### `detect_and_translate` (app.py lines 39–61) -/

/-- The translation instruction f-string built at app.py lines 46–51. -/
def translationPrompt (detected_lang text : String) : String :=
  "\nTranslate the following sentence from " ++ detected_lang ++
  " to English. Do not add explanation, just translate.\n\nOriginal (" ++
  detected_lang ++ "): " ++ text ++ "\nEnglish:\n"

/-- Embedding of `detect_and_translate` (app.py lines 39–61).
`detectRes` is the outcome of `langdetect.detect(text)` and `invoke` the
outcome of `llama.invoke` on a given prompt; `.error ()` models a raised
exception, which the surrounding `try`/`except` turns into returning the
original text. -/
def detect_and_translate (text : String) (detectRes : Except Unit String)
    (invoke : String → Except Unit String) : String :=
  match detectRes with
  | .error _ => text
  | .ok detected_lang =>
    if detected_lang = "en" then text
    else
      match invoke (translationPrompt detected_lang text) with
      | .error _ => text
      | .ok translated =>
        let translated := pyStrip translated
        if translated = "" then text else translated

/-! ### `search` (app.py lines 66–91) -/

/-- A scored point returned by `client.search`: a similarity score and a
payload dict that may lack any of the four expected keys (`payload.get`
with default `''` is modelled by `Option.getD ""`). -/
structure ScoredPoint where
  score : ℚ
  question : Option String
  answer : Option String
  source : Option String
  focus_area : Option String
deriving DecidableEq, Repr

/-- The fixed query parameters `search` passes to `client.search`
(app.py lines 72–78): collection name, `limit`, `score_threshold`,
`with_payload`. -/
structure QdrantQuery where
  collection_name : String
  limit : Nat
  score_threshold : ℚ
  with_payload : Bool
deriving DecidableEq, Repr

/-- The concrete query issued at app.py lines 72–78. -/
def searchQuery : QdrantQuery :=
  { collection_name := "Skin Diseases", limit := 5, score_threshold := 2/5,
    with_payload := true }

/-- The display string built from one result (app.py line 86–87),
including the trailing `.strip()`. -/
def displayRecord (r : ScoredPoint) : String :=
  pyStrip ("Q: " ++ r.question.getD "" ++ "\nA: " ++ r.answer.getD "" ++
    "\nSource: " ++ r.source.getD "" ++ "\nFocus Area: " ++ r.focus_area.getD "")

/-- `sorted(results, key=lambda x: x.score, reverse=True)` (app.py line 84):
a stable sort by descending score. -/
def sortedResults (results : List ScoredPoint) : List ScoredPoint :=
  results.mergeSort (fun a b => b.score ≤ a.score)

/-- Embedding of `search` (app.py lines 66–91). `storeRes` is the outcome
of the embedding call plus `client.search` with the parameters
`searchQuery`; on exception the function returns `[]`, otherwise it sorts
the returned points by descending score and projects each to its display
string. -/
def search (storeRes : Except Unit (List ScoredPoint)) : List String :=
  match storeRes with
  | .error _ => []
  | .ok results => (sortedResults results).map displayRecord

/-! ### `generate_response_with_ollama` (app.py lines 96–129) -/

/-- The dead local `context_text` of app.py line 99: the numbered,
blank-line-separated concatenation of the stripped context strings
(`"\n\n".join(f"Doc {i+1}:\n{ctx.strip()}" for i, ctx in enumerate(context))`).
It is computed by the source but never used afterwards. -/
def context_text (context : List String) : String :=
  String.intercalate "\n\n"
    (context.enum.map (fun p => "Doc " ++ toString (p.1 + 1) ++ ":\n" ++ pyStrip p.2))

/-- The prompt f-string of app.py lines 100–121. Both interpolations of
the context (lines 104 and 115) interpolate the Python *list* `context`
itself — rendered by `pyListStr` — not the numbered `context_text`. -/
def promptTemplate (context : List String) (query : String) (tone : String) : String :=
  "\nAnda adalah chatbot kesehatan bernama C-Skin. Silakan jawab setiap pertanyaan pengguna dengan nada: " ++ tone ++ ".\n\n" ++
  "Petunjuk untuk menjawab pertanyaan terkait penyakit:\n" ++
  "- Jawablah hanya menggunakan informasi yang tersedia dalam " ++ pyListStr context ++ ".\n" ++
  "- Jika pertanyaan berkaitan dengan penyakit, berikan informasi yang akurat, ringkas, dan lengkap berdasarkan konteks.\n" ++
  "- Jika tidak ditemukan informasi yang relevan dalam konteks, jangan berspekulasi atau mengarang jawaban. Sebagai gantinya, balas dengan: \"Ini adalah semua informasi yang saya miliki.\"\n" ++
  "- Hindari penggunaan istilah medis yang rumit atau tidak umum. Gunakan bahasa yang sederhana dan mudah dipahami oleh masyarakat umum.\n" ++
  "- Selalu awali jawaban Anda dengan: \"Terima kasih telah berkonsultasi dengan C-Skin.\"\n" ++
  "- Selalu akhiri jawaban Anda dengan: \"Semoga informasi ini bermanfaat, lekas sembuh, dan terima kasih.\"\n" ++
  "- Jangan gunakan pengetahuan di luar konteks yang diberikan.\n" ++
  "- Jangan menyebutkan bahwa Anda terbatas oleh konteks â€” cukup berikan jawaban sesuai informasi yang tersedia.\n" ++
  "- Anda tidak boleh menyimpulkan atau menambahkan fakta yang tidak disebutkan secara eksplisit dalam konteks. Hanya merangkum atau mengungkapkan ulang apa yang memang ada.\n\n" ++
  "Gunakan hanya konteks berikut untuk menjawab pertanyaan pengguna:\n" ++
  pyListStr context ++ "\n\n" ++
  "Pertanyaan Pengguna:\n" ++ query ++ "\n\n" ++
  "Jawab hanya dalam Bahasa Indonesia.\n"

/-- The fixed localized error reply of app.py line 129. -/
def generationErrorReply : String :=
  "Terjadi kesalahan saat menghasilkan jawaban. Silakan coba lagi."

/-- Embedding of `generate_response_with_ollama` (app.py lines 96–129).
`invoke` is the outcome of `llama.invoke` on the rendered prompt; on
exception the `except` branch returns the fixed localized error reply,
otherwise the stripped LLM output is returned. -/
def generate_response_with_ollama (context : List String) (query : String)
    (invoke : String → Except Unit String)
    (tone : String := "professional and friendly") : String :=
  match invoke (promptTemplate context query tone) with
  | .error _ => generationErrorReply
  | .ok result => pyStrip result

/-! ### The `main` message handler (app.py lines 154–190) -/

/-- A conversation turn's role (the `"role"` field of a history entry). -/
inductive Role where
  | user
  | assistant
deriving DecidableEq, Repr

/-- One history entry `{"role": ..., "text": ...}`. -/
structure Turn where
  role : Role
  text : String
deriving DecidableEq, Repr

/-- The fixed reply of app.py line 173 for empty retrieval. -/
def noInfoReply : String := "Tidak ditemukan informasi yang relevan."

/-- The fixed generic reply of app.py line 190 sent by `main`'s `except`
branch. -/
def internalErrorReply : String := "Terjadi kesalahan internal. Silakan coba lagi."

/-- The observable outcome of one run of the `main` handler. -/
structure MainResult where
  /-- The messages sent to the user, in order. -/
  sent : List String
  /-- The session store's `"history"` entry after the run (value
  semantics: changed only by `cl.user_session.set`). -/
  store : Option (List Turn)
  /-- The handler's local `history` list when the run ended. -/
  histFinal : List Turn
  /-- Whether control reached the `generate_response_async` call. -/
  generateInvoked : Bool
  /-- Whether `cl.user_session.set("history", ...)` was executed. -/
  setCalled : Bool
deriving DecidableEq, Repr

/-- Embedding of the `main` message handler (app.py lines 154–190).

Oracles: `detectRes` and `invoke` feed `detect_and_translate` and
`generate_response_with_ollama`; `storeRes` feeds `search`; `store0` is the
session store's `"history"` entry on entry.

`failAt` injects an exception at one of the awaited calls inside the `try`
block, numbered in execution order: 0 = the `detect_and_translate` await
(line 163), 1 = the `search_async` await (line 171), 2 = the empty-branch
`send` (line 173) or the `generate_response_async` await (line 177),
3 = the final `send` (lines 183–186). The `except` branch (lines 188–190)
sends the fixed generic error reply. -/
def main (message : String) (detectRes : Except Unit String)
    (invoke : String → Except Unit String)
    (storeRes : Except Unit (List ScoredPoint))
    (store0 : Option (List Turn)) (failAt : Option Nat) : MainResult :=
  let original_query := message
  if failAt = some 0 then
    { sent := [internalErrorReply], store := store0, histFinal := store0.getD [],
      generateInvoked := false, setCalled := false }
  else
    let query := detect_and_translate original_query detectRes invoke
    let history := store0.getD [] ++ [⟨Role.user, original_query⟩]
    if failAt = some 1 then
      { sent := [internalErrorReply], store := store0, histFinal := history,
        generateInvoked := false, setCalled := false }
    else
      let results := search storeRes
      if results = [] then
        if failAt = some 2 then
          { sent := [internalErrorReply], store := store0, histFinal := history,
            generateInvoked := false, setCalled := false }
        else
          { sent := [noInfoReply], store := store0, histFinal := history,
            generateInvoked := false, setCalled := false }
      else
        if failAt = some 2 then
          { sent := [internalErrorReply], store := store0, histFinal := history,
            generateInvoked := true, setCalled := false }
        else
          let response := generate_response_with_ollama results query invoke
          let history2 := history ++ [⟨Role.assistant, response⟩]
          if failAt = some 3 then
            { sent := [internalErrorReply], store := some history2, histFinal := history2,
              generateInvoked := true, setCalled := true }
          else
            { sent := [response], store := some history2, histFinal := history2,
              generateInvoked := true, setCalled := true }

/-! ### The `on_chat_resume` handler (app.py lines 195–210) -/

/-- The `thread` argument of `on_chat_resume`, as far as the handler
inspects it: `missing` is Python `None`, `malformed` any non-`dict` value,
`valid` any `dict` (the handler reads nothing from it). -/
inductive ThreadHandle where
  | missing
  | malformed
  | valid
deriving DecidableEq, Repr

/-- The fixed welcome reply of app.py line 202. -/
def welcomeReply : String := "Selamat datang kembali di C-Skin!"

/-- The observable outcome of a non-raising run of `on_chat_resume`. -/
structure ResumeResult where
  /-- The messages sent to the user, in order. -/
  sent : List String
  /-- The session store's `"history"` entry after the run. -/
  store : Option (List Turn)
deriving DecidableEq, Repr

/-- The replay loop of app.py lines 208–210: send the text of every
assistant turn, in order. `failAt` numbers the send calls actually
executed; `k` is the index of the next send. A failing send raises, and
`on_chat_resume` has no `try`/`except`, so the exception propagates
(`.error ()`). -/
def replayAssistant (failAt : Option Nat) : List Turn → Nat → Except Unit (List String)
  | [], _ => .ok []
  | t :: rest, k =>
    if t.role = Role.assistant then
      if failAt = some k then .error ()
      else (replayAssistant failAt rest (k + 1)).map (fun sent => t.text :: sent)
    else replayAssistant failAt rest k

/-- Embedding of `on_chat_resume` (app.py lines 195–210). `store0` is the
session store's `"history"` entry on entry; `failAt` injects an exception
at the `failAt`-th executed send call (the welcome send is send 0 in the
missing/malformed branch). There is no exception handler in this function,
so a raised exception propagates as `.error ()`. -/
def on_chat_resume (thread : ThreadHandle) (store0 : Option (List Turn))
    (failAt : Option Nat) : Except Unit ResumeResult :=
  match thread with
  | .missing | .malformed =>
    if failAt = some 0 then .error ()
    else .ok { sent := [welcomeReply], store := some [] }
  | .valid =>
    let history := store0.getD []
    (replayAssistant failAt history 0).map (fun sent => { sent := sent, store := store0 })

/-! ## Helper lemmas -/

/-- With no injected failure, the replay loop sends exactly the texts of the
assistant turns, in order. -/
theorem replayAssistant_none (hist : List Turn) (k : Nat) :
    replayAssistant none hist k =
      .ok (hist.filterMap
        (fun t => if t.role = Role.assistant then some t.text else none)) := by
  induction hist generalizing k with
  | nil => rfl
  | cons t rest ih =>
    by_cases h : t.role = Role.assistant <;> simp [replayAssistant, h, ih, Except.map]

/-! ## Claims -/

set_option maxRecDepth 10000 in
/-- Claim C1: the claim states that the prompt passed to the LLM contains the
context block rendered as the numbered "Doc i:" concatenation. In the source
this rendering is computed into the local `context_text` (line 99) but never
used: the f-string interpolates the Python list `context` itself (lines 104
and 115), i.e. the list's `str` rendering. At a concrete non-empty context
the numbered block does not occur in the prompt while the list rendering
does — the code contradicts its own (dead) context-formatting step. -/
theorem prompt_uses_list_repr_not_context_text :
    context_text ["Q: a\nA: b\nSource: c\nFocus Area: d"] =
      "Doc 1:\nQ: a\nA: b\nSource: c\nFocus Area: d" ∧
    occursIn (context_text ["Q: a\nA: b\nSource: c\nFocus Area: d"]).data
      (promptTemplate ["Q: a\nA: b\nSource: c\nFocus Area: d"] "apa itu eksim"
        "professional and friendly").data = false ∧
    occursIn (pyListStr ["Q: a\nA: b\nSource: c\nFocus Area: d"]).data
      (promptTemplate ["Q: a\nA: b\nSource: c\nFocus Area: d"] "apa itu eksim"
        "professional and friendly").data = true := by
  refine ⟨by decide, by decide, by decide⟩

/-- Claim C5: the language normalizer returns its input unchanged when the
detected language is English, and returns the original input when detection
raises, when translation raises, or when the stripped translation is empty.
No exception propagates (the embedding is a total function into `String`). -/
theorem detect_and_translate_fallbacks (text : String)
    (detectRes : Except Unit String) (invoke : String → Except Unit String) :
    (detectRes = .ok "en" → detect_and_translate text detectRes invoke = text) ∧
    (detectRes = .error () → detect_and_translate text detectRes invoke = text) ∧
    (∀ l, detectRes = .ok l → l ≠ "en" →
      invoke (translationPrompt l text) = .error () →
      detect_and_translate text detectRes invoke = text) ∧
    (∀ l s, detectRes = .ok l → l ≠ "en" →
      invoke (translationPrompt l text) = .ok s → pyStrip s = "" →
      detect_and_translate text detectRes invoke = text) := by
  refine ⟨?_, ?_, ?_, ?_⟩
  · intro h; subst h; simp [detect_and_translate]
  · intro h; subst h; rfl
  · intro l hdet hne hinv; subst hdet; simp [detect_and_translate, hne, hinv]
  · intro l s hdet hne hinv hstrip; subst hdet
    simp [detect_and_translate, hne, hinv, hstrip]

/-- Witness for the C5 theorem: each fallback case at a concrete input. -/
theorem detect_and_translate_fallbacks_witness :
    detect_and_translate "hello" (.ok "en") (fun _ => .ok "x") = "hello" ∧
    detect_and_translate "hola" (.error ()) (fun _ => .ok "x") = "hola" ∧
    detect_and_translate "hola" (.ok "es") (fun _ => .error ()) = "hola" ∧
    detect_and_translate "hola" (.ok "es") (fun _ => .ok "  ") = "hola" :=
  ⟨(detect_and_translate_fallbacks "hello" (.ok "en") (fun _ => .ok "x")).1 rfl,
   (detect_and_translate_fallbacks "hola" (.error ()) (fun _ => .ok "x")).2.1 rfl,
   (detect_and_translate_fallbacks "hola" (.ok "es") (fun _ => .error ())).2.2.1
     "es" rfl (by decide) rfl,
   (detect_and_translate_fallbacks "hola" (.ok "es") (fun _ => .ok "  ")).2.2.2
     "es" "  " rfl (by decide) rfl (by decide)⟩

/-- Claim C8: if invoking the LLM on the rendered prompt raises, the response
generator returns the fixed localized error reply instead of propagating;
when no exception occurs it returns the stripped LLM output. -/
theorem generate_response_error_handling (context : List String)
    (query tone : String) (invoke : String → Except Unit String) :
    (invoke (promptTemplate context query tone) = .error () →
      generate_response_with_ollama context query invoke tone = generationErrorReply) ∧
    (∀ s, invoke (promptTemplate context query tone) = .ok s →
      generate_response_with_ollama context query invoke tone = pyStrip s) := by
  constructor
  · intro h; simp [generate_response_with_ollama, h]
  · intro s h; simp [generate_response_with_ollama, h]

/-- Witness for the C8 theorem: both cases at a concrete input. -/
theorem generate_response_error_handling_witness :
    generate_response_with_ollama ["ctx"] "q" (fun _ => .error ()) "t" =
      generationErrorReply ∧
    generate_response_with_ollama ["ctx"] "q" (fun _ => .ok " jawab ") "t" =
      pyStrip " jawab " :=
  ⟨(generate_response_error_handling ["ctx"] "q" "t" (fun _ => .error ())).1 rfl,
   (generate_response_error_handling ["ctx"] "q" "t" (fun _ => .ok " jawab ")).2
     " jawab " rfl⟩

/-- Claim C2: when retrieval returns the empty sequence and no framework call
raises, `main` does not reach the generation call, sends exactly the fixed
"no relevant information" reply, leaves the session store unchanged, and the
history gains only the user turn — no assistant turn. -/
theorem main_empty_retrieval (message : String) (detectRes : Except Unit String)
    (invoke : String → Except Unit String)
    (storeRes : Except Unit (List ScoredPoint)) (store0 : Option (List Turn))
    (hempty : search storeRes = []) :
    main message detectRes invoke storeRes store0 none =
      { sent := [noInfoReply], store := store0,
        histFinal := store0.getD [] ++ [⟨Role.user, message⟩],
        generateInvoked := false, setCalled := false } := by
  simp [main, hempty]

/-- Witness for the C2 theorem at a concrete input. -/
theorem main_empty_retrieval_witness :
    main "apa itu eksim" (.ok "en") (fun _ => .ok "x") (.ok []) none none =
      { sent := [noInfoReply], store := none,
        histFinal := [⟨Role.user, "apa itu eksim"⟩],
        generateInvoked := false, setCalled := false } := by
  have h := main_empty_retrieval "apa itu eksim" (.ok "en") (fun _ => .ok "x")
    (.ok []) none (by simp [search, sortedResults])
  simpa using h

/-- Claim C7: on every non-raising run, `main` appends to the history a user
turn carrying the raw original message text (not the translated query),
directly after the prior history, on both the empty-retrieval path and the
generation path; anything appended after it is an assistant turn. -/
theorem main_records_original_user_text (message : String)
    (detectRes : Except Unit String) (invoke : String → Except Unit String)
    (storeRes : Except Unit (List ScoredPoint)) (store0 : Option (List Turn)) :
    ∃ rest, (main message detectRes invoke storeRes store0 none).histFinal =
        store0.getD [] ++ ⟨Role.user, message⟩ :: rest ∧
      ∀ t ∈ rest, t.role = Role.assistant := by
  by_cases h : search storeRes = []
  · exact ⟨[], by simp [main, h], by simp⟩
  · refine ⟨[⟨Role.assistant, generate_response_with_ollama (search storeRes)
      (detect_and_translate message detectRes invoke) invoke⟩], ?_, by simp⟩
    simp [main, h]

/-- Claim C6: on resume with a missing or malformed thread handle, the
handler resets the stored history to empty and sends exactly the fixed
welcome reply; with a valid handle it sends exactly the texts of the
assistant-authored turns of the stored history, in order, and no
user-authored turn, leaving the store unchanged. -/
theorem on_chat_resume_replay (store0 : Option (List Turn)) :
    on_chat_resume ThreadHandle.missing store0 none =
      .ok { sent := [welcomeReply], store := some [] } ∧
    on_chat_resume ThreadHandle.malformed store0 none =
      .ok { sent := [welcomeReply], store := some [] } ∧
    on_chat_resume ThreadHandle.valid store0 none =
      .ok { sent := (store0.getD []).filterMap
              (fun t => if t.role = Role.assistant then some t.text else none),
            store := store0 } := by
  refine ⟨rfl, rfl, ?_⟩
  simp [on_chat_resume, replayAssistant_none, Except.map]

/-- Claim C4: for every list of results from the backing store, in any
order, `search` returns the display strings of the results re-sorted in
descending score order: the underlying sorted sequence is pairwise
descending in score and the output is its image under `displayRecord`. -/
theorem search_sorted_descending (results : List ScoredPoint) :
    search (.ok results) = (sortedResults results).map displayRecord ∧
    (sortedResults results).Pairwise (fun a b => b.score ≤ a.score) := by
  refine ⟨rfl, ?_⟩
  have h := @List.sorted_mergeSort ScoredPoint
    (fun a b : ScoredPoint => decide (b.score ≤ a.score))
    (fun a b c hab hbc => by
      simp only [decide_eq_true_eq] at *
      exact le_trans hbc hab)
    (fun a b => by
      simp only [Bool.or_eq_true, decide_eq_true_eq]
      exact le_total b.score a.score)
    results
  exact h.imp (fun hab => of_decide_eq_true hab)

/-- Claim C3 counterexample: `search` performs no local capping or score
filtering — it forwards `limit` and `score_threshold` to the store and
keeps whatever comes back. If the store returned six results, all six
display strings are returned (more than 5); if it returned a single result
with score 3/10 (below the 2/5 threshold), that result is returned too. -/
theorem search_no_local_cap_or_threshold :
    5 < (search (.ok (List.replicate 6
      ⟨(9:ℚ)/10, some "q", some "a", some "s", some "f"⟩))).length ∧
    search (.ok [⟨(3:ℚ)/10, some "q", some "a", some "s", some "f"⟩]) ≠ [] ∧
    (3:ℚ)/10 < searchQuery.score_threshold := by
  refine ⟨?_, ?_, by norm_num [searchQuery]⟩
  · simp [search, sortedResults]
  · intro h
    have : (search (.ok [⟨(3:ℚ)/10, some "q", some "a", some "s", some "f"⟩])).length = 1 := by
      simp [search, sortedResults]
    simp [h] at this

/-- Claim C3 (amended): `search` issues its store query with `limit = 5` and
`score_threshold = 2/5`, returns exactly one display string per store
result (so at most 5 when the store honors the limit), and every underlying
result it renders has score at least 2/5 when the store honors the
threshold; on a store exception it returns the empty sequence. -/
theorem search_respects_store_contract (results : List ScoredPoint) :
    searchQuery.limit = 5 ∧ searchQuery.score_threshold = 2/5 ∧
    (search (.ok results)).length = results.length ∧
    (results.length ≤ 5 → (search (.ok results)).length ≤ 5) ∧
    ((∀ r ∈ results, searchQuery.score_threshold ≤ r.score) →
      ∀ r ∈ sortedResults results, (2:ℚ)/5 ≤ r.score) ∧
    search (.error ()) = [] := by
  refine ⟨rfl, rfl, ?_, ?_, ?_, rfl⟩
  · simp [search, sortedResults]
  · intro h
    simpa [search, sortedResults] using h
  · intro h r hr
    have hmem : r ∈ results := by
      simpa [sortedResults] using hr
    simpa [searchQuery] using h r hmem

/-- Witness for the C3 amended theorem: a store reply honoring the limit
and the threshold at concrete inputs. -/
theorem search_respects_store_contract_witness :
    (search (.ok [⟨(81:ℚ)/100, some "q1", some "a1", some "s1", some "f1"⟩,
      ⟨(11:ℚ)/20, some "q2", some "a2", some "s2", some "f2"⟩])).length ≤ 5 ∧
    ∀ r ∈ sortedResults [⟨(81:ℚ)/100, some "q1", some "a1", some "s1", some "f1"⟩,
      ⟨(11:ℚ)/20, some "q2", some "a2", some "s2", some "f2"⟩], (2:ℚ)/5 ≤ r.score :=
  ⟨(search_respects_store_contract _).2.2.2.1 (by simp),
   (search_respects_store_contract _).2.2.2.2.1 (by
      intro r hr
      simp [searchQuery] at hr ⊢
      rcases hr with h | h <;> rw [h] <;> norm_num)⟩

/-- Claim C9 counterexample: `on_chat_resume` has no `try`/`except`
(app.py lines 195–210), so a failure during one of its sends propagates as
a raw exception instead of degrading to a canned message: with a valid
thread, a stored history holding an assistant turn, and the first executed
send raising, the handler's outcome is a propagated exception. -/
theorem resume_handler_propagates_exception :
    on_chat_resume ThreadHandle.valid
      (some [⟨Role.user, "halo dok"⟩, ⟨Role.assistant, "Terima kasih."⟩])
      (some 0) = .error () := by
  rfl

/-- Claim C9 (amended): the helpers swallow their own exceptions and `main`
degrades a failure at any of its awaited calls to the fixed generic error
reply (never re-raising), but `on_chat_resume` has no exception handler, so
a failing send there propagates as a raw exception. -/
theorem handler_failure_degradation (message : String)
    (detectRes : Except Unit String) (invoke : String → Except Unit String)
    (storeRes : Except Unit (List ScoredPoint)) (store0 : Option (List Turn))
    (k : Nat) (hreach : k ≤ 2 ∨ (k = 3 ∧ search storeRes ≠ [])) :
    (main message detectRes invoke storeRes store0 (some k)).sent =
      [internalErrorReply] ∧
    on_chat_resume ThreadHandle.valid (some [⟨Role.assistant, "halo"⟩])
      (some 0) = .error () := by
  constructor
  · rcases hreach with hk | ⟨hk, hne⟩
    · interval_cases k <;> by_cases hE : search storeRes = [] <;> simp [main, hE]
    · subst hk; simp [main, hne]
  · rfl

/-- Witness for the C9 amended theorem at a concrete input. -/
theorem handler_failure_degradation_witness :
    (main "q" (.ok "en") (fun _ => .ok "x") (.ok []) none (some 0)).sent =
      [internalErrorReply] ∧
    on_chat_resume ThreadHandle.valid (some [⟨Role.assistant, "halo"⟩])
      (some 0) = .error () :=
  handler_failure_degradation "q" (.ok "en") (fun _ => .ok "x") (.ok []) none 0
    (Or.inl (by norm_num))

/-- Claim C10 counterexample: an exception at the final message delivery
(app.py lines 183–186) occurs after `cl.user_session.set` (line 181), so
that run both takes the top-level exception path (it sends the generic
error reply) and has already written the updated history to the session
store — the store is not left unchanged on that exception path. -/
theorem main_writes_store_then_raises :
    (main "q" (.error ()) (fun _ => .error ())
      (.ok [⟨(1:ℚ), some "q", some "a", some "s", some "f"⟩])
      (some []) (some 3)).sent = [internalErrorReply] ∧
    (main "q" (.error ()) (fun _ => .error ())
      (.ok [⟨(1:ℚ), some "q", some "a", some "s", some "f"⟩])
      (some []) (some 3)).setCalled = true ∧
    (main "q" (.error ()) (fun _ => .error ())
      (.ok [⟨(1:ℚ), some "q", some "a", some "s", some "f"⟩])
      (some []) (some 3)).store ≠ some [] := by
  have hne : search (.ok [⟨(1:ℚ), some "q", some "a", some "s", some "f"⟩]) ≠ [] := by
    intro h
    have hl := congrArg List.length h
    simp [search, sortedResults] at hl
  refine ⟨?_, ?_, ?_⟩ <;> simp [main, hne]

/-- Claim C10 (amended): `main` calls `cl.user_session.set` exactly on the
runs where retrieval is non-empty and control passes the generation call;
on the empty-retrieval path and on exception paths arising before the set
(the translate, search, empty-branch send, or generate calls) no write
happens and the store is unchanged; whenever the set is executed the store
holds the final history — including when the final delivery then raises. -/
theorem main_session_write_policy (message : String)
    (detectRes : Except Unit String) (invoke : String → Except Unit String)
    (storeRes : Except Unit (List ScoredPoint)) (store0 : Option (List Turn))
    (failAt : Option Nat) :
    (search storeRes = [] →
      (main message detectRes invoke storeRes store0 failAt).setCalled = false ∧
      (main message detectRes invoke storeRes store0 failAt).store = store0) ∧
    (∀ k, failAt = some k → k ≤ 2 →
      (main message detectRes invoke storeRes store0 failAt).setCalled = false ∧
      (main message detectRes invoke storeRes store0 failAt).store = store0) ∧
    ((main message detectRes invoke storeRes store0 failAt).setCalled = true ↔
      search storeRes ≠ [] ∧ failAt ≠ some 0 ∧ failAt ≠ some 1 ∧
        failAt ≠ some 2) ∧
    ((main message detectRes invoke storeRes store0 failAt).setCalled = true →
      (main message detectRes invoke storeRes store0 failAt).store =
        some ((main message detectRes invoke storeRes store0 failAt).histFinal)) := by
  by_cases h0 : failAt = some 0 <;> by_cases h1 : failAt = some 1 <;>
    by_cases h2 : failAt = some 2 <;> by_cases h3 : failAt = some 3 <;>
    by_cases hE : search storeRes = [] <;>
    simp_all [main] <;>
    (intro k hk hle
     exfalso
     subst hk
     simp only [Option.some.injEq] at h0 h1 h2
     omega)

/-- Witness for the C10 amended theorem at a concrete input. -/
theorem main_session_write_policy_witness :
    (main "q" (.ok "en") (fun _ => .ok "x") (.ok []) (some []) none).setCalled =
      false ∧
    (main "q" (.ok "en") (fun _ => .ok "x") (.ok []) (some []) none).store =
      some [] :=
  (main_session_write_policy "q" (.ok "en") (fun _ => .ok "x") (.ok [])
    (some []) none).1 (by simp [search, sortedResults])

end CSkin
